import Mathlib

/-!
Verification of the SD-AI_Audit website-audit server (`src/unnamed/part_000`).

This file gives a shallow embedding of the two core subsystems:

* the **Model Response Reconciler** — the Gemini attempt ladder
  (`modelsToTry` construction and the `for (const tryModel of modelsToTry)`
  loop) and the JSON cleanup/repair pipeline in the `/api/audit` handler
  (fence stripping, greedy `{...}` extraction, strict parse, the single
  trailing-comma + bracket-balancing repair pass, retry parse);

* the **Website Snapshot Engine** — `fetchWebsiteSimple` (the lightweight
  HTTP fallback) and `fetchWebsiteContent` (the Puppeteer render path with
  its per-stage try/catch structure: CSS analysis, reflow test at 320px,
  zoom test at 200%, mobile capture with its reduced-extraction fallback,
  and the unconditional browser close before returning).

Browser-side measurements (element boxes, computed paddings, viewport
dimensions, media-rule texts) are inputs of the embedding: they are what the
page under test provides.  Everything computed *from* those measurements by
the server's code (compliance booleans, verdicts, truncations, list caps,
fallback chains) is transcribed from the source.
-/

namespace Audit

/-! ## JSON values and a strict parser modelling `JSON.parse` -/

/-- A parsed JSON value.  Numbers keep their lexeme: the reconciler only
needs parse success/failure, never numeric semantics. -/
inductive Json where
  | null : Json
  | bool (b : Bool) : Json
  | num (lexeme : String) : Json
  | str (s : String) : Json
  | arr (elems : List Json) : Json
  | obj (members : List (String × Json)) : Json
  deriving Repr

/-- JSON insignificant whitespace (RFC 8259). -/
def isJsonWs (c : Char) : Bool :=
  c = ' ' || c = '\t' || c = '\n' || c = '\r'

/-- Skip insignificant whitespace. -/
def skipWs (cs : List Char) : List Char := cs.dropWhile isJsonWs

/-- Parse the body of a JSON string after the opening quote, returning the
decoded characters and the remaining input. -/
def pStrChars : Nat → List Char → Except String (List Char × List Char)
  | 0, _ => .error "Unexpected end of JSON input"
  | _ + 1, [] => .error "Unterminated string in JSON"
  | fuel + 1, c :: cs =>
    if c = '"' then .ok ([], cs)
    else if c = '\\' then
      match cs with
      | [] => .error "Unterminated string in JSON"
      | e :: cs' =>
        if e = '"' ∨ e = '\\' ∨ e = '/' then
          match pStrChars fuel cs' with
          | .ok (s, rest) => .ok (e :: s, rest)
          | .error msg => .error msg
        else if e = 'b' then
          match pStrChars fuel cs' with
          | .ok (s, rest) => .ok ('\x08' :: s, rest)
          | .error msg => .error msg
        else if e = 'f' then
          match pStrChars fuel cs' with
          | .ok (s, rest) => .ok ('\x0c' :: s, rest)
          | .error msg => .error msg
        else if e = 'n' then
          match pStrChars fuel cs' with
          | .ok (s, rest) => .ok ('\n' :: s, rest)
          | .error msg => .error msg
        else if e = 'r' then
          match pStrChars fuel cs' with
          | .ok (s, rest) => .ok ('\r' :: s, rest)
          | .error msg => .error msg
        else if e = 't' then
          match pStrChars fuel cs' with
          | .ok (s, rest) => .ok ('\t' :: s, rest)
          | .error msg => .error msg
        else if e = 'u' then
          let hex := cs'.take 4
          if hex.length = 4 ∧ hex.all (fun h => h.isDigit || ('a' ≤ h ∧ h ≤ 'f') || ('A' ≤ h ∧ h ≤ 'F')) then
            let code := hex.foldl (fun acc h =>
              16 * acc + (if h.isDigit then h.toNat - '0'.toNat
                          else if 'a' ≤ h then h.toNat - 'a'.toNat + 10
                          else h.toNat - 'A'.toNat + 10)) 0
            match pStrChars fuel (cs'.drop 4) with
            | .ok (s, rest) => .ok (Char.ofNat code :: s, rest)
            | .error msg => .error msg
          else .error "Bad Unicode escape in JSON"
        else .error "Bad escaped character in JSON"
    else if c.toNat < 0x20 then .error "Bad control character in JSON string"
    else
      match pStrChars fuel cs with
      | .ok (s, rest) => .ok (c :: s, rest)
      | .error msg => .error msg

/-- Parse a JSON number lexeme: `-?(0|[1-9][0-9]*)(\.[0-9]+)?([eE][+-]?[0-9]+)?`. -/
def pNumber (cs : List Char) : Except String (String × List Char) :=
  let (sign, cs1) :=
    match cs with
    | '-' :: rest => (['-'], rest)
    | _ => (([] : List Char), cs)
  let intPart := cs1.takeWhile Char.isDigit
  let cs2 := cs1.dropWhile Char.isDigit
  if intPart = [] then .error "Unexpected token in JSON number"
  else if 1 < intPart.length ∧ intPart.head? = some '0' then
    .error "Unexpected number in JSON"
  else
    let (fracPart, cs3) :=
      match cs2 with
      | '.' :: rest =>
        let ds := rest.takeWhile Char.isDigit
        (('.' :: ds), rest.dropWhile Char.isDigit)
      | _ => (([] : List Char), cs2)
    if fracPart = ['.'] then .error "Unterminated fractional number in JSON"
    else
      let (expPart, cs4) :=
        match cs3 with
        | e :: rest =>
          if e = 'e' ∨ e = 'E' then
            let (sgn, rest') :=
              match rest with
              | s :: r => if s = '+' ∨ s = '-' then ([s], r) else (([] : List Char), rest)
              | [] => (([] : List Char), rest)
            let ds := rest'.takeWhile Char.isDigit
            ((e :: sgn ++ ds), rest'.dropWhile Char.isDigit)
          else (([] : List Char), cs3)
        | [] => (([] : List Char), cs3)
      if expPart ≠ [] ∧ expPart.getLast? = some 'e' then .error "Exponent part is missing a number in JSON"
      else if expPart ≠ [] ∧ (expPart.getLast? = some '+' ∨ expPart.getLast? = some '-') then
        .error "Exponent part is missing a number in JSON"
      else .ok (String.mk (sign ++ intPart ++ fracPart ++ expPart), cs4)

mutual

/-- Parse one JSON value (recursive descent, fuel-bounded). -/
def pVal : Nat → List Char → Except String (Json × List Char)
  | 0, _ => .error "JSON nesting too deep"
  | fuel + 1, cs =>
    match skipWs cs with
    | [] => .error "Unexpected end of JSON input"
    | c :: rest =>
      if c = '{' then pObj fuel rest true []
      else if c = '[' then pArr fuel rest true []
      else if c = '"' then
        match pStrChars (rest.length + 1) rest with
        | .ok (s, r) => .ok (.str (String.mk s), r)
        | .error msg => .error msg
      else if c = 't' then
        if ['r', 'u', 'e'].isPrefixOf rest then .ok (.bool true, rest.drop 3)
        else .error "Unexpected token t in JSON"
      else if c = 'f' then
        if ['a', 'l', 's', 'e'].isPrefixOf rest then .ok (.bool false, rest.drop 4)
        else .error "Unexpected token f in JSON"
      else if c = 'n' then
        if ['u', 'l', 'l'].isPrefixOf rest then .ok (.null, rest.drop 3)
        else .error "Unexpected token n in JSON"
      else if c = '-' ∨ c.isDigit then
        match pNumber (c :: rest) with
        | .ok (lex, r) => .ok (.num lex, r)
        | .error msg => .error msg
      else .error ("Unexpected token " ++ String.mk [c] ++ " in JSON")

/-- Parse JSON object members after `{`.  `first` is true before the first
member has been parsed (so `}` closes an empty object). -/
def pObj : Nat → List Char → Bool → List (String × Json) → Except String (Json × List Char)
  | 0, _, _, _ => .error "JSON nesting too deep"
  | fuel + 1, cs, first, acc =>
    match skipWs cs with
    | [] => .error "Unexpected end of JSON input"
    | c :: rest =>
      if c = '}' ∧ first then .ok (.obj acc.reverse, rest)
      else if c = '"' then
        match pStrChars (rest.length + 1) rest with
        | .error msg => .error msg
        | .ok (k, afterKey) =>
          match skipWs afterKey with
          | ':' :: afterColon =>
            match pVal fuel afterColon with
            | .error msg => .error msg
            | .ok (v, afterVal) =>
              match skipWs afterVal with
              | ',' :: afterComma => pObj fuel afterComma false ((String.mk k, v) :: acc)
              | '}' :: afterBrace => .ok (.obj (((String.mk k, v) :: acc)).reverse, afterBrace)
              | _ => .error "Expected comma or closing brace in JSON object"
          | _ => .error "Expected colon in JSON object"
      else .error ("Unexpected token " ++ String.mk [c] ++ " in JSON object")

/-- Parse JSON array elements after `[`. -/
def pArr : Nat → List Char → Bool → List Json → Except String (Json × List Char)
  | 0, _, _, _ => .error "JSON nesting too deep"
  | fuel + 1, cs, first, acc =>
    match skipWs cs with
    | [] => .error "Unexpected end of JSON input"
    | c :: rest =>
      if c = ']' ∧ first then .ok (.arr acc.reverse, rest)
      else
        match pVal fuel (c :: rest) with
        | .error msg => .error msg
        | .ok (v, afterVal) =>
          match skipWs afterVal with
          | ',' :: afterComma => pArr fuel afterComma false (v :: acc)
          | ']' :: afterBracket => .ok (.arr ((v :: acc)).reverse, afterBracket)
          | _ => .error "Expected comma or closing bracket in JSON array"

end

/-- The model of `JSON.parse`: strict parse of an entire string (only
trailing whitespace is tolerated after the value). -/
def jsonParse (s : String) : Except String Json :=
  match pVal (2 * s.length + 16) s.data with
  | .error e => .error e
  | .ok (v, rest) =>
    if skipWs rest = [] then .ok v
    else .error "Unexpected non-whitespace character after JSON data"

/-- `true` exactly on `Except.ok`. -/
def exOk {ε α : Type} : Except ε α → Bool
  | .ok _ => true
  | .error _ => false

/-! ## Response cleanup: fence stripping, greedy extraction, repair

Transcribed from the `/api/audit` handler, `src/unnamed/part_000`
lines 2395-2461. -/

/-- One global-regex pass removing every occurrence of `tag` together with
the whitespace run that follows it, as `text.replace(/tag\s*WRAP/g, '')`
does; scanning resumes after each removed match.  Fuel is the input
length. -/
def removeTagRuns (tag : List Char) : Nat → List Char → List Char
  | 0, cs => cs
  | _ + 1, [] => []
  | fuel + 1, c :: rest =>
    if tag.isPrefixOf (c :: rest) then
      removeTagRuns tag fuel (((c :: rest).drop tag.length).dropWhile Char.isWhitespace)
    else c :: removeTagRuns tag fuel rest

/-- `.trim()`: drop leading and trailing whitespace (on the character
list, so that it evaluates by `rfl`). -/
def trimChars (cs : List Char) : List Char :=
  ((cs.dropWhile Char.isWhitespace).reverse.dropWhile Char.isWhitespace).reverse

/-- `a.includes(b)` on character lists: `b` occurs contiguously in `a`. -/
def listContainsSub (needle : List Char) : List Char → Bool
  | [] => needle.isEmpty
  | c :: rest => needle.isPrefixOf (c :: rest) || listContainsSub needle rest

/-- Line 2398: `responseText.replace(/```json\s*uFENCE/g, '').replace(/```\s*uFENCE/g, '').trim()`. -/
def stripFences (s : String) : String :=
  let s1 := removeTagRuns "```json".data s.data.length s.data
  let s2 := removeTagRuns "```".data s1.length s1
  String.mk (trimChars s2)

/-- Index of the last occurrence of `c` in `cs`. -/
def lastIdxOf (c : Char) (cs : List Char) : Option Nat :=
  match cs.reverse.findIdx? (· = c) with
  | none => none
  | some k => some (cs.length - 1 - k)

/-- Lines 2401-2405: `responseText.match(/\x7b[\s\S]*\x7d/)` — the greedy
regex matches from the first `{` to the last `}` when the last `}` comes
after the first `{`; otherwise there is no match and the text is kept
unchanged. -/
def extractJsonSpan (s : String) : String :=
  let cs := s.data
  match cs.findIdx? (· = '{') with
  | none => s
  | some i =>
    match lastIdxOf '}' cs with
    | none => s
    | some j => if i < j then String.mk ((cs.drop i).take (j - i + 1)) else s

/-- Line 2428: `cleanText.replace(/,(\s*[\x7d\]])/g, '$1')` — each comma
followed by optional whitespace and a closing brace/bracket is dropped
(the whitespace and closer are kept); scanning resumes after the match. -/
def stripTrailingCommas : Nat → List Char → List Char
  | 0, cs => cs
  | _ + 1, [] => []
  | fuel + 1, c :: rest =>
    if c = ',' then
      let ws := rest.takeWhile Char.isWhitespace
      match rest.dropWhile Char.isWhitespace with
      | b :: tail =>
        if b = '}' ∨ b = ']' then ws ++ b :: stripTrailingCommas fuel tail
        else ',' :: stripTrailingCommas fuel rest
      | [] => ',' :: stripTrailingCommas fuel rest
    else c :: stripTrailingCommas fuel rest

/-- Lines 2426-2444: the single repair pass — strip trailing commas, count
`{`/`}` and `[`/`]` occurrences over the whole text, then append first the
deficit of `]` and then the deficit of `}`. -/
def repairJson (cleanText : String) : String :=
  let t := String.mk (stripTrailingCommas cleanText.data.length cleanText.data)
  let openBraces := t.data.count '{'
  let closeBraces := t.data.count '}'
  let openBrackets := t.data.count '['
  let closeBrackets := t.data.count ']'
  let t1 := if closeBrackets < openBrackets then
    t ++ String.mk (List.replicate (openBrackets - closeBrackets) ']') else t
  let t2 := if closeBraces < openBraces then
    t1 ++ String.mk (List.replicate (openBraces - closeBraces) '}') else t1
  t2

/-- Line 2460: the fatal message surfacing the *original* parse error. -/
def invalidJsonMsg (parseErr : String) : String :=
  "Invalid JSON response from Gemini. The response may be incomplete or malformed. Error: "
    ++ parseErr ++ ". Please try again."

/-- Lines 2395-2461: clean the raw model text (strip fences, extract the
greedy `{...}` span), attempt a strict parse; on failure run the single
repair pass and retry once; if the retry also fails, fail with the original
parse error.  Returns the text that parsed (the handler forwards it as the
response body). -/
def reconcileModelResponse (raw : String) : Except String String :=
  let responseText := stripFences raw
  let cleanText := extractJsonSpan responseText
  match jsonParse cleanText with
  | .ok _ => .ok cleanText
  | .error parseErr =>
    let fixed := repairJson cleanText
    match jsonParse fixed with
    | .ok _ => .ok fixed
    | .error _ => .error (invalidJsonMsg parseErr)

/-- Analysis predicate (not from the source): `true` when some `{`, `}`,
`[` or `]` character occurs inside a JSON string literal of `s`, scanning
with the usual quote/escape discipline.  `inStr` tracks whether the scan is
currently inside a string. -/
def scanBracketInString : Bool → List Char → Bool
  | _, [] => false
  | false, c :: cs =>
    if c = '"' then scanBracketInString true cs else scanBracketInString false cs
  | true, c :: cs =>
    if c = '\\' then
      match cs with
      | [] => false
      | _ :: cs' => scanBracketInString true cs'
    else if c = '"' then scanBracketInString false cs
    else if c = '{' ∨ c = '}' ∨ c = '[' ∨ c = ']' then true
    else scanBracketInString true cs

/-- See `scanBracketInString`. -/
def bracketInsideStringLiteral (s : String) : Bool :=
  scanBracketInString false s.data

/-! ## The Gemini attempt ladder

Transcribed from the `/api/audit` handler, lines 2346-2393. -/

/-- Lines 2347-2352: the fixed default candidate list. -/
def defaultGeminiModels : List String :=
  ["gemini-3-pro-preview", "gemini-2.5-pro", "gemini-2.5-flash", "gemini-2.0-flash"]

/-- `[...new Set(xs)]`: deduplicate keeping the first occurrence of each
element, preserving order. -/
def dedupKeepFirstGo (seen : List String) : List String → List String
  | [] => []
  | x :: xs =>
    if seen.contains x then dedupKeepFirstGo seen xs
    else x :: dedupKeepFirstGo (x :: seen) xs

/-- See `dedupKeepFirstGo`. -/
def dedupKeepFirst (l : List String) : List String := dedupKeepFirstGo [] l

/-- Lines 2354-2361: if the requested model is truthy and already among the
defaults, it is unshifted to the front and the list deduplicated; otherwise
the ladder is exactly the default list. -/
def modelsToTry (model : String) : List String :=
  if model ≠ "" ∧ defaultGeminiModels.contains model then
    dedupKeepFirst (model :: defaultGeminiModels)
  else defaultGeminiModels

/-- Lines 2390-2392: the aggregate failure message built when the ladder is
exhausted — it interpolates only `lastError?.message`. -/
def ladderFailureMsg (lastError : Option String) : String :=
  "Gemini API error: All models failed. Last error: "
    ++ (lastError.getD "Unknown error")
    ++ ". Note: Some models may require billing to be enabled in Google AI Studio."

/-- Lines 2363-2393: the `for (const tryModel of modelsToTry)` loop.
`attempt` is the generation call for one backend; on success the loop
breaks with the winning backend identifier (`modelName = tryModel`) and the
raw output; on failure `lastError` is overwritten and the next candidate is
tried.  When no candidate succeeded, the handler throws the aggregate
message. -/
def runLadder (attempt : String → Except String String) :
    List String → Option String → Except String (String × String)
  | [], lastError => .error (ladderFailureMsg lastError)
  | m :: ms, _ =>
    match attempt m with
    | .ok output => .ok (m, output)
    | .error e => runLadder attempt ms (some e)

/-- The full ladder for a requested model identifier. -/
def runModelLadder (attempt : String → Except String String) (model : String) :
    Except String (String × String) :=
  runLadder attempt (modelsToTry model) none

/-! ## Theorems about the reconciler and the ladder -/

/-- C5: for every raw model response text, reconciliation strips the fence
markers, extracts the greedy `{...}` span and attempts a strict parse; on
parse failure it performs exactly one repair pass (trailing-comma strip
plus closing-character append) and one retry parse; if the second parse
also fails the operation fails fatally surfacing the *original* parse
error (regardless of what the second error was), and no further repair is
applied. -/
theorem reconcile_two_attempt_repair_policy (raw : String) :
    (exOk (jsonParse (extractJsonSpan (stripFences raw))) = true →
      reconcileModelResponse raw = .ok (extractJsonSpan (stripFences raw))) ∧
    (exOk (jsonParse (extractJsonSpan (stripFences raw))) = false →
      exOk (jsonParse (repairJson (extractJsonSpan (stripFences raw)))) = true →
      reconcileModelResponse raw = .ok (repairJson (extractJsonSpan (stripFences raw)))) ∧
    (∀ e, jsonParse (extractJsonSpan (stripFences raw)) = .error e →
      exOk (jsonParse (repairJson (extractJsonSpan (stripFences raw)))) = false →
      reconcileModelResponse raw = .error (invalidJsonMsg e)) := by
  unfold reconcileModelResponse
  refine ⟨?_, ?_, ?_⟩
  · intro h1
    cases hp : jsonParse (extractJsonSpan (stripFences raw)) with
    | ok v => simp [hp]
    | error e => rw [hp] at h1; simp [exOk] at h1
  · intro h1 h2
    cases hp : jsonParse (extractJsonSpan (stripFences raw)) with
    | ok v => rw [hp] at h1; simp [exOk] at h1
    | error e =>
      cases hr : jsonParse (repairJson (extractJsonSpan (stripFences raw))) with
      | ok w => simp [hp, hr]
      | error e2 => rw [hr] at h2; simp [exOk] at h2
  · intro e hp h2
    cases hr : jsonParse (repairJson (extractJsonSpan (stripFences raw))) with
    | ok w => rw [hr] at h2; simp [exOk] at h2
    | error e2 => simp [hp, hr]

/-- Witness for C5: the three branches at concrete inputs — a fenced valid
response, a truncated response repaired by the balancer, and a response
where both parse attempts fail and the original error is surfaced. -/
theorem reconcile_two_attempt_repair_policy_witness :
    reconcileModelResponse "```json\n\x7b\"categories\":[]\x7d\n```" = .ok "\x7b\"categories\":[]\x7d" ∧
    reconcileModelResponse "\x7b\"a\":[1,2" = .ok "\x7b\"a\":[1,2]\x7d" ∧
    reconcileModelResponse "\x7b]" = .error (invalidJsonMsg "Unexpected token ] in JSON object") := by
  refine ⟨?_, ?_, ?_⟩
  · exact (reconcile_two_attempt_repair_policy "```json\n\x7b\"categories\":[]\x7d\n```").1 (by rfl)
  · exact (reconcile_two_attempt_repair_policy "\x7b\"a\":[1,2").2.1 (by rfl) (by rfl)
  · exact (reconcile_two_attempt_repair_policy "\x7b]").2.2
      "Unexpected token ] in JSON object" (by rfl) (by rfl)

/-- C10: the repair pass counts every `{`/`}`/`[`/`]` character occurrence,
including brackets inside JSON string literals; consequently there is a
model output that is valid JSON merely truncated — closable by appending
closing characters — but whose in-string brace defeats the occurrence
count, so reconciliation fails fatally. -/
theorem repair_counts_brackets_inside_strings :
    ∃ raw closer : String,
      closer.data.all (fun c => c == ']' || c == '}') = true ∧
      exOk (jsonParse (raw ++ closer)) = true ∧
      bracketInsideStringLiteral raw = true ∧
      raw.data.count '}' = 1 ∧
      exOk (reconcileModelResponse raw) = false := by
  refine ⟨"\x7b\"a\":\"\x7d\",\"b\":[1", "]\x7d", by rfl, by rfl, by rfl, by rfl, by rfl⟩

/-- Counterexample for C3: when every backend in the ladder fails, the
surfaced aggregate error interpolates only `lastError` — the first
backend's failure reason does not occur anywhere in the surfaced message,
so "each attempted backend's failure reason is preserved" is false. -/
theorem ladder_aggregate_drops_earlier_reasons :
    runModelLadder (fun m => .error ("quota exceeded for " ++ m)) "gemini-2.5-pro"
      = .error (ladderFailureMsg (some "quota exceeded for gemini-2.0-flash")) ∧
    listContainsSub ("quota exceeded for gemini-2.5-pro").data
      (ladderFailureMsg (some "quota exceeded for gemini-2.0-flash")).data = false := by
  exact ⟨by rfl, by rfl⟩

/-- C3 (amended): if every backend fails, the operation fails fatally with
an aggregate message determined solely by the *last* backend's failure
reason; earlier reasons are logged but not retained in the surfaced
error. -/
theorem ladder_exhausted_surfaces_last_reason_only
    (attempt : String → Except String String) (ms : List String) (m em : String)
    (le : Option String)
    (hm : attempt m = .error em)
    (hAll : ∀ x ∈ ms, exOk (attempt x) = false) :
    runLadder attempt (ms ++ [m]) le = .error (ladderFailureMsg (some em)) := by
  induction ms generalizing le with
  | nil => simp [runLadder, hm]
  | cons a as ih =>
    have ha := hAll a (by simp)
    cases h : attempt a with
    | ok v => rw [h] at ha; simp [exOk] at ha
    | error e =>
      simp only [List.cons_append, runLadder, h]
      exact ih (some e) (fun x hx => hAll x (List.mem_cons_of_mem a hx))

/-- Witness for C3 (amended): three failing backends; the surfaced message
carries only the third reason. -/
theorem ladder_exhausted_surfaces_last_reason_only_witness :
    runLadder (fun x => .error ("fail " ++ x)) (["m1", "m2"] ++ ["m3"]) none
      = .error (ladderFailureMsg (some "fail m3")) :=
  ladder_exhausted_surfaces_last_reason_only (fun x => .error ("fail " ++ x))
    ["m1", "m2"] "m3" "fail m3" none (by rfl) (by decide)

/-- Counterexample for C4: the caller's requested backend is placed first
only when it is already one of the defaults.  For the requested identifier
`gemini-1.5-flash` (which the endpoint's own error message suggests) the
ladder is exactly the default list: the requested backend is not first —
in fact it is never tried at all. -/
theorem ladder_order_requested_not_first :
    modelsToTry "gemini-1.5-flash" = defaultGeminiModels ∧
    (modelsToTry "gemini-1.5-flash").head? = some "gemini-3-pro-preview" ∧
    (modelsToTry "gemini-1.5-flash").contains "gemini-1.5-flash" = false := by
  exact ⟨by rfl, by rfl, by rfl⟩

/-- C4 (amended): if the requested backend is one of the defaults it is
moved to the front and deduplicated against them, the remaining defaults
keeping their fixed order; otherwise the ladder is exactly the default
list.  Candidates are tried sequentially: the first success breaks the
ladder and the *winning* candidate's identifier is returned; a failure
records its reason and continues with the next candidate. -/
theorem ladder_order_and_first_success :
    (∀ m, m ∈ defaultGeminiModels →
      modelsToTry m = m :: defaultGeminiModels.filter (fun d => decide (d ≠ m))) ∧
    (∀ m, m ∉ defaultGeminiModels → modelsToTry m = defaultGeminiModels) ∧
    (∀ attempt m rest le output, attempt m = .ok output →
      runLadder attempt (m :: rest) le = .ok (m, output)) ∧
    (∀ attempt m rest le e, attempt m = .error e →
      runLadder attempt (m :: rest) le = runLadder attempt rest (some e)) := by
  refine ⟨?_, ?_, ?_, ?_⟩
  · intro m hm
    fin_cases hm <;> rfl
  · intro m hm
    unfold modelsToTry
    rw [if_neg]
    rintro ⟨-, hc⟩
    exact hm (by simpa using hc)
  · intro attempt m rest le output h
    simp [runLadder, h]
  · intro attempt m rest le e h
    simp [runLadder, h]

/-- Witness for C4 (amended): each conjunct at a concrete input. -/
theorem ladder_order_and_first_success_witness :
    modelsToTry "gemini-2.0-flash"
      = ["gemini-2.0-flash", "gemini-3-pro-preview", "gemini-2.5-pro", "gemini-2.5-flash"] ∧
    modelsToTry "gemini-9.9-ultra" = defaultGeminiModels ∧
    runLadder (fun _ => .ok "OUT") ["gemini-2.5-flash", "gemini-2.0-flash"] none
      = .ok ("gemini-2.5-flash", "OUT") ∧
    runLadder (fun x => if x = "gemini-2.5-flash" then .error "E1" else .ok "Y")
        ["gemini-2.5-flash", "gemini-2.0-flash"] none
      = runLadder (fun x => if x = "gemini-2.5-flash" then .error "E1" else .ok "Y")
        ["gemini-2.0-flash"] (some "E1") := by
  refine ⟨?_, ?_, ?_, ?_⟩
  · exact (ladder_order_and_first_success.1 "gemini-2.0-flash" (by decide)).trans (by rfl)
  · exact ladder_order_and_first_success.2.1 "gemini-9.9-ultra" (by decide)
  · exact ladder_order_and_first_success.2.2.1 _ "gemini-2.5-flash"
      ["gemini-2.0-flash"] none "OUT" (by rfl)
  · exact ladder_order_and_first_success.2.2.2 _ "gemini-2.5-flash"
      ["gemini-2.0-flash"] none "E1" (by simp)

/-! ## Snapshot engine: shared DOM extraction

Transcribed from `fetchWebsiteSimple` (lines 836-863) and the identical
desktop block of `fetchWebsiteContent` (lines 959-986).  The cheerio query
results (element texts, attributes, counts) are inputs; everything the
server computes from them is transcribed. -/

/-- `\s+` collapsed to single spaces, as `text.replace(/\s+WRAP/g, ' ')`.
`prevWs` records whether the previous character was part of a whitespace
run already emitted as one space. -/
def collapseWsGo : Bool → List Char → List Char
  | _, [] => []
  | prevWs, c :: cs =>
    if c.isWhitespace then
      if prevWs then collapseWsGo true cs else ' ' :: collapseWsGo true cs
    else c :: collapseWsGo false cs

/-- See `collapseWsGo`. -/
def collapseWsStr (s : String) : String := String.mk (collapseWsGo false s.data)

/-- `.trim()` on a string. -/
def jsTrim (s : String) : String := String.mk (trimChars s.data)

/-- `.substring(0, n)`. -/
def strSubstring (s : String) (n : Nat) : String := String.mk (s.data.take n)

/-- `hay.includes(needle)`. -/
def jsIncludes (hay needle : String) : Bool := listContainsSub needle.data hay.data

/-- `a || b` on strings: `b` when `a` is falsy (empty). -/
def firstTruthy (a b : String) : String := if a = "" then b else a

/-- `parseInt(x) || d`: `d` for `NaN` (`none`) and for `0`. -/
def orFalsyInt (o : Option Int) (d : Int) : Int :=
  match o with
  | some v => if v = 0 then d else v
  | none => d

/-- `parseFloat(x) || d` on rationals. -/
def orFalsyRat (o : Option ℚ) (d : ℚ) : ℚ :=
  match o with
  | some v => if v = 0 then d else v
  | none => d

/-- `x || null` for a nullable string attribute: empty string becomes null. -/
def truthyOrNone (o : Option String) : Option String :=
  match o with
  | some s => if s = "" then none else some s
  | none => none

/-- `s` is truthy (present and non-empty). -/
def strTruthy (o : Option String) : Bool :=
  match o with
  | some s => !(s = "" : Bool)
  | none => false

/-- Lines 847-850: the CTA keyword heuristic over the lowercased link
text. -/
def isCTAText (t : String) : Bool :=
  let lower := String.mk (t.data.map Char.toLower)
  jsIncludes lower "click" || jsIncludes lower "buy" ||
    jsIncludes lower "sign up" || jsIncludes lower "contact"

/-- An `<a>` element as cheerio sees it. -/
structure DomLinkRaw where
  text : String
  href : Option String
  deriving Repr, DecidableEq

/-- An `<img>` element as cheerio sees it. -/
structure DomImageRaw where
  src : Option String
  alt : Option String
  title : Option String
  deriving Repr, DecidableEq

/-- A button-like element as cheerio sees it. -/
structure DomButtonRaw where
  text : String
  value : Option String
  attrType : Option String
  deriving Repr, DecidableEq

/-- The document facts the cheerio queries of lines 836-863 read. -/
structure DomFacts where
  titleText : String
  metaDescription : Option String
  h1 : List String
  h2 : List String
  h3 : List String
  links : List DomLinkRaw
  images : List DomImageRaw
  forms : Nat
  buttons : List DomButtonRaw
  bodyText : String
  deriving Repr, DecidableEq

/-- A produced link summary entry. -/
structure LinkEntry where
  text : String
  href : Option String
  isCTA : Bool
  deriving Repr, DecidableEq

/-- A produced image summary entry. -/
structure ImageEntry where
  src : Option String
  alt : String
  title : String
  deriving Repr, DecidableEq

/-- A produced button summary entry (`type` is a Lean keyword, hence
`btnType`). -/
structure ButtonEntry where
  text : String
  btnType : String
  deriving Repr, DecidableEq

/-- Heading lists. -/
structure Headings where
  h1 : List String
  h2 : List String
  h3 : List String
  deriving Repr, DecidableEq

/-- The `structuredData` record of lines 836-863 / 959-986. -/
structure StructuredData where
  title : String
  metaDescription : String
  headings : Headings
  links : List LinkEntry
  images : List ImageEntry
  forms : Nat
  buttons : List ButtonEntry
  textContent : String
  deriving Repr, DecidableEq

/-- Lines 836-863: build `structuredData` from the document facts, given
the already-resolved title string. -/
def mkStructuredData (titleStr : String) (dom : DomFacts) : StructuredData :=
  { title := titleStr
    metaDescription := dom.metaDescription.getD ""
    headings := { h1 := dom.h1, h2 := dom.h2, h3 := dom.h3 }
    links := (dom.links.map (fun l =>
      { text := jsTrim l.text, href := l.href, isCTA := isCTAText l.text })).take 50
    images := (dom.images.map (fun im =>
      { src := im.src, alt := im.alt.getD "", title := im.title.getD "" })).take 30
    forms := dom.forms
    buttons := dom.buttons.map (fun b =>
      { text := firstTruthy b.text (b.value.getD "")
        btnType := firstTruthy (b.attrType.getD "") "button" })
    textContent := strSubstring (jsTrim (collapseWsStr dom.bodyText)) 50000 }

/-! ## Viewport stress tests (reflow at 320px, zoom at 200%) -/

/-- Browser measurements read by the reflow evaluate (lines 1420-1423). -/
structure ReflowRaw where
  bodyScrollWidth : Int
  innerWidth : Int
  docClientWidth : Int
  deriving Repr, DecidableEq

/-- The reflow test record returned at lines 1425-1431. -/
structure ReflowTest where
  viewportWidth : Int
  bodyWidth : Int
  hasHorizontalScroll : Bool
  scrollbarWidth : Int
  meetsReflowRequirement : Bool
  deriving Repr, DecidableEq

/-- Lines 1419-1432: `hasHorizontalScroll = bodyWidth > viewportWidth`,
`scrollbarWidth = innerWidth - documentElement.clientWidth`, verdict
`!hasHorizontalScroll || scrollbarWidth === 0`. -/
def mkReflowTest (r : ReflowRaw) : ReflowTest :=
  let hasHS := decide (r.innerWidth < r.bodyScrollWidth)
  { viewportWidth := r.innerWidth
    bodyWidth := r.bodyScrollWidth
    hasHorizontalScroll := hasHS
    scrollbarWidth := r.innerWidth - r.docClientWidth
    meetsReflowRequirement := !hasHS || decide (r.innerWidth - r.docClientWidth = 0) }

/-- Browser measurements read by the zoom evaluate (lines 1449-1467). -/
structure ZoomRaw where
  originalBodyWidth : Int
  originalBodyHeight : Int
  newBodyWidth : Int
  newBodyHeight : Int
  innerWidth : Int
  innerHeight : Int
  deriving Repr, DecidableEq

/-- The zoom test record returned at lines 1473-1485. -/
structure ZoomTest where
  zoomLevel : Nat
  originalWidth : Int
  originalHeight : Int
  zoomedWidth : Int
  zoomedHeight : Int
  viewportWidth : Int
  viewportHeight : Int
  hasHorizontalScroll : Bool
  hasVerticalScroll : Bool
  meetsZoomRequirement : Bool
  deriving Repr, DecidableEq

/-- Lines 1449-1485: the zoom verdict is the literal `true` — "Scrolling is
acceptable, just need to check if content is readable". -/
def mkZoomTest (r : ZoomRaw) : ZoomTest :=
  { zoomLevel := 2
    originalWidth := r.originalBodyWidth
    originalHeight := r.originalBodyHeight
    zoomedWidth := r.newBodyWidth
    zoomedHeight := r.newBodyHeight
    viewportWidth := r.innerWidth
    viewportHeight := r.innerHeight
    hasHorizontalScroll := decide (r.innerWidth < r.newBodyWidth)
    hasVerticalScroll := decide (r.innerHeight < r.newBodyHeight)
    meetsZoomRequirement := true }

/-! ## Desktop style probe: target sizes (24×24 minimum) -/

/-- A clickable element as the desktop target-size loop reads it
(lines 1153-1160): geometric box from `getBoundingClientRect` and
`parseFloat`ed paddings (`none` models `NaN`, defaulted by `|| 0`). -/
structure RawDesktopEl where
  tag : String
  text : String
  width : ℚ
  height : ℚ
  paddingTop : Option ℚ
  paddingBottom : Option ℚ
  paddingLeft : Option ℚ
  paddingRight : Option ℚ
  deriving Repr, DecidableEq

/-- Line 1162: `rect.width + paddingLeft + paddingRight`. -/
def desktopEffectiveWidth (e : RawDesktopEl) : ℚ :=
  e.width + (e.paddingLeft.getD 0) + (e.paddingRight.getD 0)

/-- Line 1163: `rect.height + paddingTop + paddingBottom`. -/
def desktopEffectiveHeight (e : RawDesktopEl) : ℚ :=
  e.height + (e.paddingTop.getD 0) + (e.paddingBottom.getD 0)

/-- One entry of the desktop `targetSizes` list (lines 1165-1173). -/
structure TargetSizeEntry where
  tag : String
  text : String
  width : Int
  height : Int
  effectiveWidth : Int
  effectiveHeight : Int
  meets24x24 : Bool
  deriving Repr, DecidableEq

/-- Lines 1155-1173: the desktop target-size computation —
`meets24x24 = effectiveWidth >= 24 && effectiveHeight >= 24` on the
unrounded effective box, stored sizes rounded. -/
def mkTargetSizeEntry (e : RawDesktopEl) : TargetSizeEntry :=
  { tag := e.tag
    text := strSubstring (jsTrim e.text) 40
    width := round e.width
    height := round e.height
    effectiveWidth := round (desktopEffectiveWidth e)
    effectiveHeight := round (desktopEffectiveHeight e)
    meets24x24 := decide (24 ≤ desktopEffectiveWidth e) &&
      decide (24 ≤ desktopEffectiveHeight e) }

/-- The desktop CSS-analysis evaluate result.  The claims touch only the
`targetSizes` section and the all-or-nothing shape of the whole object; the
remaining probe sections (links, form elements, interactive states,
tooltips, animations, …) are carried as name-tagged payloads provided by
the page. -/
structure DesktopCssRaw where
  rawTargets : List RawDesktopEl
  otherSections : List (String × String)
  deriving Repr, DecidableEq

/-- The built desktop CSS analysis. -/
structure DesktopCss where
  targetSizes : List TargetSizeEntry
  otherSections : List (String × String)
  deriving Repr, DecidableEq

/-- Lines 1151-1175: the loop is capped at the first 30 elements. -/
def mkDesktopCss (r : DesktopCssRaw) : DesktopCss :=
  { targetSizes := (r.rawTargets.take 30).map mkTargetSizeEntry
    otherSections := r.otherSections }

/-! ## Mobile capture (lines 1500-1798) -/

/-- An interactive element as the mobile touch-target loop reads it
(lines 1566-1597): raw geometric rect (rounded by `getElementSize`) and
`parseInt`ed paddings/font size (`none` models `NaN`). -/
structure RawMobileEl where
  tag : String
  text : String
  rectW : ℚ
  rectH : ℚ
  rectX : ℚ
  rectY : ℚ
  fontSizePx : Option Int
  padTop : Option Int
  padBottom : Option Int
  padLeft : Option Int
  padRight : Option Int
  ariaLabel : Option String
  titleAttr : Option String
  deriving Repr, DecidableEq

/-- Lines 1566-1574: `getElementSize` — `Math.round` of the rect. -/
structure TouchSize where
  width : Int
  height : Int
  x : Int
  y : Int
  deriving Repr, DecidableEq

/-- See `TouchSize`. -/
def getElementSize (e : RawMobileEl) : TouchSize :=
  { width := round e.rectW, height := round e.rectH
    x := round e.rectX, y := round e.rectY }

/-- The effective touch box (size plus padding), lines 1598-1600. -/
structure EffectiveSize where
  width : Int
  height : Int
  deriving Repr, DecidableEq

/-- One entry of `interactiveElements` (lines 1602-1613). -/
structure TouchTarget where
  tag : String
  text : String
  size : TouchSize
  effectiveSize : EffectiveSize
  fontSize : Int
  meetsWCAG : Bool
  hasLabel : Bool
  deriving Repr, DecidableEq

/-- Lines 1591-1613: the mobile touch-target computation —
`meetsWCAG = effectiveWidth >= 44 && effectiveHeight >= 44` where the
effective box is the rounded rect plus `parseInt`ed paddings. -/
def mkTouchTarget (e : RawMobileEl) : TouchTarget :=
  let size := getElementSize e
  let pl := orFalsyInt e.padLeft 0
  let pr := orFalsyInt e.padRight 0
  let pt := orFalsyInt e.padTop 0
  let pb := orFalsyInt e.padBottom 0
  let ew := size.width + pl + pr
  let eh := size.height + pt + pb
  { tag := e.tag
    text := strSubstring (jsTrim e.text) 50
    size := size
    effectiveSize := { width := ew, height := eh }
    fontSize := orFalsyInt e.fontSizePx 16
    meetsWCAG := decide (44 ≤ ew) && decide (44 ≤ eh)
    hasLabel := strTruthy e.ariaLabel || strTruthy e.titleAttr ||
      decide (0 < (jsTrim e.text).length) }

/-- A non-compliant touch-target report entry (lines 1673-1677). -/
structure NonCompliantEntry where
  element : String
  size : String
  required : String
  deriving Repr, DecidableEq

/-- The `touchTargets` section of the full mobile data (lines 1670-1679). -/
structure TouchTargetsSummary where
  total : Nat
  compliant : Nat
  nonCompliant : List NonCompliantEntry
  details : List TouchTarget
  deriving Repr, DecidableEq

/-- A spacing violation entry (lines 1627-1631). -/
structure SpacingIssue where
  element1 : String
  element2 : String
  distance : Int
  deriving Repr, DecidableEq

/-- Lines 1622-1631: a pair violates when both axis distances between the
element origins are below the fixed 8px minimum. -/
def spacingIssueOf (e1 e2 : TouchTarget) : Option SpacingIssue :=
  let dx := |e1.size.x - e2.size.x|
  let dy := |e1.size.y - e2.size.y|
  if dx < 8 ∧ dy < 8 then
    some { element1 := strSubstring e1.text 30
           element2 := strSubstring e2.text 30
           distance := min dx dy }
  else none

/-- Lines 1620-1634: each element against every later element. -/
def spacingPairs : List TouchTarget → List SpacingIssue
  | [] => []
  | e :: rest => (rest.filterMap (spacingIssueOf e)) ++ spacingPairs rest

/-- The `viewport` section (lines 1664-1669). -/
structure MobileViewport where
  width : Int
  height : Int
  metaTag : Option String
  hasViewportMeta : Bool
  deriving Repr, DecidableEq

/-- The `responsive` section (lines 1683-1686). -/
structure ResponsiveInfo where
  hasMobileMediaQueries : Bool
  breakpoints : List String
  deriving Repr, DecidableEq

/-- The `typography` section (lines 1687-1691). -/
structure TypographyInfo where
  bodyFontSize : Int
  bodyLineHeight : ℚ
  meetsMinimum : Bool
  deriving Repr, DecidableEq

/-- A mobile link as the mobile CSS loop reads it (lines 1705-1715). -/
structure MobileLinkRaw where
  text : String
  textDecoration : String
  fontWeightParsed : Option Int
  fontSize : String
  deriving Repr, DecidableEq

/-- A produced mobile link fact (lines 1708-1713). -/
structure MobileLinkFact where
  text : String
  hasUnderline : Bool
  isBold : Bool
  fontSize : String
  deriving Repr, DecidableEq

/-- Lines 1705-1715. -/
def mkMobileLinkFact (l : MobileLinkRaw) : MobileLinkFact :=
  { text := strSubstring (jsTrim l.text) 50
    hasUnderline := jsIncludes l.textDecoration "underline"
    isBold := match l.fontWeightParsed with
      | some v => decide (600 ≤ v)
      | none => false
    fontSize := l.fontSize }

/-- The mobile `cssAnalysis.links` section (line 1726). -/
structure MobileLinksSection where
  total : Nat
  details : List MobileLinkFact
  deriving Repr, DecidableEq

/-- The mobile `cssAnalysis.spacing.body` section (lines 1718-1723). -/
structure MobileSpacingSection where
  bodyLineHeight : String
  bodyLetterSpacing : String
  deriving Repr, DecidableEq

/-- The mobile `cssAnalysis` block (lines 1694-1729). -/
structure MobileCssAnalysis where
  links : MobileLinksSection
  spacing : MobileSpacingSection
  deriving Repr, DecidableEq

/-- The mobile cheerio facts (lines 1734-1749). -/
structure MobileDomFacts where
  h1 : List String
  h2 : List String
  h3 : List String
  buttons : List DomButtonRaw
  links : List DomLinkRaw
  forms : Nat
  deriving Repr, DecidableEq

/-- A mobile structured-data link entry (lines 1744-1747 — no CTA flag). -/
structure MobileLinkEntry where
  text : String
  href : Option String
  deriving Repr, DecidableEq

/-- The `mobileStructuredData` record (lines 1734-1749). -/
structure MobileStructuredData where
  headings : Headings
  buttons : List ButtonEntry
  links : List MobileLinkEntry
  forms : Nat
  deriving Repr, DecidableEq

/-- Lines 1734-1749. -/
def mkMobileStructuredData (d : MobileDomFacts) : MobileStructuredData :=
  { headings := { h1 := d.h1, h2 := d.h2, h3 := d.h3 }
    buttons := d.buttons.map (fun b =>
      { text := firstTruthy b.text (b.value.getD "")
        btnType := firstTruthy (b.attrType.getD "") "button" })
    links := (d.links.map (fun l => { text := jsTrim l.text, href := l.href })).take 30
    forms := d.forms }

/-- Everything the full mobile capture reads from the page
(lines 1565-1752): viewport facts, interactive elements grouped by query
selector (the loop caps each selector's list at 20), media-rule texts,
typography inputs, the mobile link facts, the mobile DOM facts and HTML. -/
structure MobileCaptureRaw where
  innerWidth : Int
  innerHeight : Int
  hasViewportMeta : Bool
  metaContent : Option String
  elementsBySelector : List (List RawMobileEl)
  mediaRuleTexts : List String
  bodyFontSizeParsed : Option Int
  bodyLineHeightParsed : Option ℚ
  bodyInnerText : String
  mobileLinksRaw : List MobileLinkRaw
  mobileLinksTotal : Nat
  bodyLineHeightStr : String
  bodyLetterSpacingStr : String
  mobileDom : MobileDomFacts
  mobileHtml : String
  deriving Repr, DecidableEq

/-- The full mobile data object (lines 1663-1752). -/
structure MobileFull where
  viewport : MobileViewport
  touchTargets : TouchTargetsSummary
  spacingIssues : List SpacingIssue
  responsive : ResponsiveInfo
  typography : TypographyInfo
  textContent : String
  cssAnalysis : MobileCssAnalysis
  structuredData : MobileStructuredData
  html : String
  deriving Repr, DecidableEq

/-- Lines 1565-1752: build the full mobile data. -/
def mkMobileData (r : MobileCaptureRaw) : MobileFull :=
  let ie := ((r.elementsBySelector.map (fun l => l.take 20)).flatten).map mkTouchTarget
  let matched := r.mediaRuleTexts.filter (fun t =>
    jsIncludes t "max-width" || jsIncludes t "min-width")
  let bodyFontSize := orFalsyInt r.bodyFontSizeParsed 16
  let vp : MobileViewport :=
    { width := r.innerWidth
      height := r.innerHeight
      metaTag := if r.hasViewportMeta then r.metaContent else none
      hasViewportMeta := r.hasViewportMeta }
  let tts : TouchTargetsSummary :=
    { total := ie.length
      compliant := (ie.filter (fun el => el.meetsWCAG)).length
      nonCompliant := (ie.filter (fun el => !el.meetsWCAG)).map (fun el =>
        { element := strSubstring el.text 50
          size := toString el.effectiveSize.width ++ "x" ++
            toString el.effectiveSize.height ++ "px"
          required := "44x44px minimum" })
      details := ie.take 30 }
  let resp : ResponsiveInfo :=
    { hasMobileMediaQueries := !matched.isEmpty
      breakpoints := matched.take 5 }
  let typo : TypographyInfo :=
    { bodyFontSize := bodyFontSize
      bodyLineHeight := orFalsyRat r.bodyLineHeightParsed (3 / 2)
      meetsMinimum := decide (16 ≤ bodyFontSize) }
  let css : MobileCssAnalysis :=
    { links :=
        { total := r.mobileLinksTotal
          details := (r.mobileLinksRaw.take 20).map mkMobileLinkFact }
      spacing :=
        { bodyLineHeight := r.bodyLineHeightStr
          bodyLetterSpacing := r.bodyLetterSpacingStr } }
  { viewport := vp
    touchTargets := tts
    spacingIssues := (spacingPairs ie).take 10
    responsive := resp
    typography := typo
    textContent := strSubstring (jsTrim (collapseWsStr r.bodyInnerText)) 30000
    cssAnalysis := css
    structuredData := mkMobileStructuredData r.mobileDom
    html := strSubstring r.mobileHtml 100000 }

/-- What the reduced-extraction fallback reads from the page
(lines 1762-1791). -/
structure BasicProbeRaw where
  innerWidth : Int
  innerHeight : Int
  metaContent : Option String
  hasViewportMeta : Bool
  interactiveCount : Nat
  bodyFontSizeParsed : Option Int
  bodyLineHeightParsed : Option ℚ
  bodyInnerText : String
  outerHtml : String
  deriving Repr, DecidableEq

/-- The reduced `touchTargets` section (lines 1770-1774): only the raw
element count; `compliant` fixed at 0 and no per-element details. -/
structure BasicTouchTargets where
  total : Nat
  compliant : Nat
  nonCompliant : List NonCompliantEntry
  deriving Repr, DecidableEq

/-- The reduced mobile data (lines 1762-1790).  It has no `cssAnalysis`
field — the reduced extraction performs no style analysis. -/
structure BasicMobile where
  viewport : MobileViewport
  touchTargets : BasicTouchTargets
  spacingIssues : List SpacingIssue
  responsive : ResponsiveInfo
  typography : TypographyInfo
  textContent : String
  structuredData : MobileStructuredData
  html : String
  deriving Repr, DecidableEq

/-- Lines 1762-1790: build the reduced mobile data. -/
def mkBasicMobile (b : BasicProbeRaw) : BasicMobile :=
  let vp : MobileViewport :=
    { width := b.innerWidth
      height := b.innerHeight
      metaTag := truthyOrNone b.metaContent
      hasViewportMeta := b.hasViewportMeta }
  let typo : TypographyInfo :=
    { bodyFontSize := orFalsyInt b.bodyFontSizeParsed 16
      bodyLineHeight := orFalsyRat b.bodyLineHeightParsed (3 / 2)
      meetsMinimum := true }
  { viewport := vp
    touchTargets := { total := b.interactiveCount, compliant := 0, nonCompliant := [] }
    spacingIssues := []
    responsive := { hasMobileMediaQueries := false, breakpoints := [] }
    typography := typo
    textContent := strSubstring (jsTrim (collapseWsStr b.bodyInnerText)) 10000
    structuredData :=
      { headings := { h1 := [], h2 := [], h3 := [] }
        buttons := [], links := [], forms := 0 }
    html := strSubstring b.outerHtml 50000 }

/-- The `mobileData` field: a full capture or the reduced fallback. -/
inductive MobileData where
  | full (d : MobileFull)
  | reduced (d : BasicMobile)
  deriving Repr, DecidableEq

/-- Whether a snapshot's mobile data carries a style analysis block. -/
def mobileStyleAnalysisPresent : Option MobileData → Bool
  | some (.full _) => true
  | _ => false

/-! ## The snapshot orchestrator -/

/-- The snapshot record returned at lines 865-871 (simple path) and
1806-1815 (render path).  The simple path's return statement has no
`cssAnalysis`/`reflowTest`/`zoomTest` keys and sets `mobileData: null`;
`none` models both absent and null. -/
structure Snapshot where
  url : String
  html : String
  structuredData : StructuredData
  cssAnalysis : Option DesktopCss
  reflowTest : Option ReflowTest
  zoomTest : Option ZoomTest
  mobileData : Option MobileData
  fetchedAt : String

/-- What one call of `fetchWebsiteSimple` observes: either a transport
error (DNS failure, refused connection, timeout) or an HTTP response with
its status and document. -/
inductive SimpleOutcome where
  | transportError (msg : String)
  | response (status : Nat) (statusText : String) (html : String) (dom : DomFacts)

/-- Lines 778-875: `fetchWebsiteSimple` — throws on transport errors and on
any non-2xx response (`if (!response.ok) throw new Error(...)`, lines
828-830; `response.ok` is `status >= 200 && status < 300`); on a 2xx
response it returns a snapshot whose optional fields are all absent/null.
Every failure is wrapped as `Simple fetch failed: ...` by the outer
catch. -/
def fetchWebsiteSimple (url fetchedAt : String) : SimpleOutcome → Except String Snapshot
  | .transportError msg => .error ("Simple fetch failed: " ++ msg)
  | .response status statusText html dom =>
    if 200 ≤ status ∧ status < 300 then
      .ok { url := url
            html := strSubstring html 200000
            structuredData := mkStructuredData (firstTruthy dom.titleText "No title") dom
            cssAnalysis := none
            reflowTest := none
            zoomTest := none
            mobileData := none
            fetchedAt := fetchedAt }
    else .error ("Simple fetch failed: HTTP " ++ toString status ++ ": " ++ statusText)

/-- What one successful render session observes: the page title and HTML,
the document facts, and the outcome (`ok` result or thrown error) of each
inner try/catch stage — desktop CSS analysis, reflow, zoom, full mobile
capture, and the reduced mobile fallback. -/
structure RenderEnv where
  pageTitle : String
  html : String
  dom : DomFacts
  cssOutcome : Except String DesktopCssRaw
  reflowOutcome : Except String ReflowRaw
  zoomOutcome : Except String ZoomRaw
  mobileOutcome : Except String MobileCaptureRaw
  basicOutcome : Except String BasicProbeRaw

/-- The render path's result: the snapshot plus whether the browser was
closed before returning (lines 1800-1802 close it unconditionally). -/
structure SessionResult where
  snapshot : Snapshot
  browserClosed : Bool

/-- Lines 903-1815: the render session.  Each stage's catch assigns `null`
to its field (lines 1407-1410, 1435-1438, 1491-1494); a mobile failure
falls back to the reduced extraction (lines 1757-1793) and only if that
also throws is `mobileData` null (lines 1794-1797).  The browser is closed
before the snapshot is returned (lines 1800-1802). -/
def sessionSnapshot (url fetchedAt : String) (env : RenderEnv) : SessionResult :=
  let desktopCSSAnalysis := match env.cssOutcome with
    | .ok r => some (mkDesktopCss r)
    | .error _ => none
  let reflowTest := match env.reflowOutcome with
    | .ok r => some (mkReflowTest r)
    | .error _ => none
  let zoomTest := match env.zoomOutcome with
    | .ok r => some (mkZoomTest r)
    | .error _ => none
  let mobileData : Option MobileData := match env.mobileOutcome with
    | .ok r => some (.full (mkMobileData r))
    | .error _ =>
      match env.basicOutcome with
      | .ok b => some (.reduced (mkBasicMobile b))
      | .error _ => none
  let snap : Snapshot :=
    { url := url
      html := strSubstring env.html 200000
      structuredData := mkStructuredData
        (firstTruthy env.pageTitle (firstTruthy env.dom.titleText "No title")) env.dom
      cssAnalysis := desktopCSSAnalysis
      reflowTest := reflowTest
      zoomTest := zoomTest
      mobileData := mobileData
      fetchedAt := fetchedAt }
  { snapshot := snap
    browserClosed := true }

/-- How the Puppeteer path went: not installed (lines 1832-1836), a hard
failure anywhere outside the inner stage catches — launch, navigation
machinery, content read — (lines 1817-1831), or a completed session. -/
inductive PuppeteerOutcome where
  | unavailable
  | hardFailure (msg : String)
  | session (env : RenderEnv)

/-- Lines 878-1837: `fetchWebsiteContent` — the render path when Puppeteer
is available and the session completes; on a hard failure or when
Puppeteer is unavailable, the lightweight fetch is the (sole) fallback and
its error, if any, propagates. -/
def fetchWebsiteContent (url fetchedAt : String) (p : PuppeteerOutcome)
    (s : SimpleOutcome) : Except String Snapshot :=
  match p with
  | .session env => .ok (sessionSnapshot url fetchedAt env).snapshot
  | .hardFailure _ => fetchWebsiteSimple url fetchedAt s
  | .unavailable => fetchWebsiteSimple url fetchedAt s

/-- An HTTP response was received (the target is reachable over HTTP). -/
def responseReceived : SimpleOutcome → Bool
  | .response _ _ _ _ => true
  | _ => false

/-- The render path completed a session. -/
def renderSessionOk : PuppeteerOutcome → Bool
  | .session _ => true
  | _ => false

/-- The lightweight path received a 2xx response. -/
def simpleResponseOk : SimpleOutcome → Bool
  | .response st _ _ _ => decide (200 ≤ st ∧ st < 300)
  | _ => false

/-! ## Demo inputs used by the concrete witnesses -/

/-- A minimal static document. -/
def demoDom : DomFacts :=
  { titleText := "Hello"
    metaDescription := none
    h1 := [], h2 := [], h3 := []
    links := [], images := []
    forms := 0, buttons := []
    bodyText := "hi" }

/-- The snapshot the lightweight fetch produces for `demoDom` on a 2xx
response. -/
def demoSimpleSnap : Snapshot :=
  { url := "https://e.com"
    html := "<p>hi</p>"
    structuredData := mkStructuredData "Hello" demoDom
    cssAnalysis := none
    reflowTest := none
    zoomTest := none
    mobileData := none
    fetchedAt := "t0" }

/-- An empty desktop CSS probe result. -/
def demoCssRaw : DesktopCssRaw := { rawTargets := [], otherSections := [] }

/-- A reflow measurement with no overflow. -/
def demoReflowRaw : ReflowRaw :=
  { bodyScrollWidth := 320, innerWidth := 320, docClientWidth := 320 }

/-- A zoom measurement. -/
def demoZoomRaw : ZoomRaw :=
  { originalBodyWidth := 1920, originalBodyHeight := 2000
    newBodyWidth := 3840, newBodyHeight := 4000
    innerWidth := 1920, innerHeight := 1080 }

/-- An empty mobile DOM. -/
def demoMobileDom : MobileDomFacts :=
  { h1 := [], h2 := [], h3 := [], buttons := [], links := [], forms := 0 }

/-- A minimal full mobile capture. -/
def demoMobileRaw : MobileCaptureRaw :=
  { innerWidth := 390, innerHeight := 844
    hasViewportMeta := true, metaContent := some "width=device-width"
    elementsBySelector := [], mediaRuleTexts := []
    bodyFontSizeParsed := some 16, bodyLineHeightParsed := some 24
    bodyInnerText := "hi"
    mobileLinksRaw := [], mobileLinksTotal := 0
    bodyLineHeightStr := "24px", bodyLetterSpacingStr := "normal"
    mobileDom := demoMobileDom
    mobileHtml := "<p>hi</p>" }

/-- A minimal reduced mobile probe. -/
def demoBasicRaw : BasicProbeRaw :=
  { innerWidth := 390, innerHeight := 844
    metaContent := some "width=device-width", hasViewportMeta := true
    interactiveCount := 7
    bodyFontSizeParsed := some 16, bodyLineHeightParsed := some 24
    bodyInnerText := "hi", outerHtml := "<p>hi</p>" }

/-- A render session where every stage succeeded. -/
def demoEnv : RenderEnv :=
  { pageTitle := "Hello", html := "<p>hi</p>", dom := demoDom
    cssOutcome := .ok demoCssRaw
    reflowOutcome := .ok demoReflowRaw
    zoomOutcome := .ok demoZoomRaw
    mobileOutcome := .ok demoMobileRaw
    basicOutcome := .ok demoBasicRaw }

/-- A render session where every inner stage threw. -/
def demoEnvAllFail : RenderEnv :=
  { pageTitle := "Hello", html := "<p>hi</p>", dom := demoDom
    cssOutcome := .error "css stage threw"
    reflowOutcome := .error "reflow stage threw"
    zoomOutcome := .error "zoom stage threw"
    mobileOutcome := .error "mobile stage threw"
    basicOutcome := .error "basic mobile stage threw" }

/-- A render session where only the mobile capture threw and the reduced
extraction succeeded. -/
def demoEnvMobileFail : RenderEnv :=
  { pageTitle := "Hello", html := "<p>hi</p>", dom := demoDom
    cssOutcome := .ok demoCssRaw
    reflowOutcome := .ok demoReflowRaw
    zoomOutcome := .ok demoZoomRaw
    mobileOutcome := .error "mobile stage threw"
    basicOutcome := .ok demoBasicRaw }

/-- A mobile element whose effective box is exactly 44×44: rect 40×40 plus
2px of padding on each side. -/
def demoMobileEl : RawMobileEl :=
  { tag := "button", text := "Go"
    rectW := 40, rectH := 40, rectX := 0, rectY := 0
    fontSizePx := some 16
    padTop := some 2, padBottom := some 2, padLeft := some 2, padRight := some 2
    ariaLabel := none, titleAttr := none }

/-- A desktop element whose effective box is exactly 24×24. -/
def demoDesktopEl : RawDesktopEl :=
  { tag := "a", text := "x"
    width := 20, height := 20
    paddingTop := some 2, paddingBottom := some 2
    paddingLeft := some 2, paddingRight := some 2 }

/-! ## Theorems about the snapshot engine -/

/-- Counterexample for C1: a page that is reachable over HTTP (a response
*was* received — status 403) still makes capture throw when the render
path is unavailable, because `fetchWebsiteSimple` raises on every non-2xx
status (lines 828-830). -/
theorem capture_reachable_page_can_throw :
    responseReceived (.response 403 "Forbidden" "<html></html>" demoDom) = true ∧
    fetchWebsiteContent "https://e.com" "t0" .unavailable
        (.response 403 "Forbidden" "<html></html>" demoDom)
      = .error "Simple fetch failed: HTTP 403: Forbidden" := by
  exact ⟨rfl, by rfl⟩

/-- C1 (amended): capture returns a Snapshot exactly when the render path
completes a session or the lightweight fallback receives a 2xx response;
it throws both when the target is categorically unreachable on both paths
*and* when the fallback path receives a non-2xx response from a reachable
page. -/
theorem capture_ok_iff_render_or_fallback_ok (url ts : String)
    (p : PuppeteerOutcome) (s : SimpleOutcome) :
    exOk (fetchWebsiteContent url ts p s) = (renderSessionOk p || simpleResponseOk s) := by
  cases p <;> cases s <;>
    simp only [fetchWebsiteContent, fetchWebsiteSimple, renderSessionOk,
      simpleResponseOk, exOk, Bool.false_or, Bool.true_or] <;>
    first
      | rfl
      | (rename_i st _ _ _; by_cases h : 200 ≤ st ∧ st < 300 <;> simp [h, exOk])

/-- C2: the reflow verdict is true iff the page shows no horizontal
overflow at the 320px viewport beyond the zero-width-scrollbar tolerance,
i.e. unless the body scroll width exceeds the viewport width while the
measured scrollbar width is nonzero; whenever such overflow is present the
verdict is fail. -/
theorem reflow_verdict_iff_no_overflow_beyond_tolerance (r : ReflowRaw) :
    (mkReflowTest r).meetsReflowRequirement = true ↔
      ¬(r.innerWidth < r.bodyScrollWidth ∧ r.innerWidth - r.docClientWidth ≠ 0) := by
  simp only [mkReflowTest, Bool.or_eq_true, Bool.not_eq_true',
    decide_eq_false_iff_not, decide_eq_true_eq, not_lt]
  constructor
  · rintro (h | h) ⟨h1, h2⟩
    · omega
    · exact h2 h
  · intro h
    by_cases hb : r.innerWidth < r.bodyScrollWidth
    · right
      by_contra hc
      exact h ⟨hb, hc⟩
    · left
      omega

/-- C9: the zoom test's verdict is the constant `true` for every measured
outcome — it never reports `meetsZoomRequirement = false`, whatever the
before/after measurements show. -/
theorem zoom_verdict_always_true (r : ZoomRaw) :
    (mkZoomTest r).meetsZoomRequirement = true := rfl

/-- C8: target-size boundaries are inclusive and differ per viewport.  On
mobile an element whose effective box (rounded rect plus padding) is
exactly 44×44 meets WCAG, and `meetsWCAG` is false exactly when the
effective width or height is below 44.  On desktop `meets24x24` is false
exactly when the effective box (geometric size plus padding) is below
24×24, so 24×24 exactly is compliant. -/
theorem target_size_boundaries_inclusive :
    (∀ e : RawMobileEl, (mkTouchTarget e).effectiveSize.width = 44 →
      (mkTouchTarget e).effectiveSize.height = 44 → (mkTouchTarget e).meetsWCAG = true) ∧
    (∀ e : RawMobileEl, (mkTouchTarget e).meetsWCAG = false ↔
      ((mkTouchTarget e).effectiveSize.width < 44 ∨
        (mkTouchTarget e).effectiveSize.height < 44)) ∧
    (∀ d : RawDesktopEl, desktopEffectiveWidth d = 24 → desktopEffectiveHeight d = 24 →
      (mkTargetSizeEntry d).meets24x24 = true) ∧
    (∀ d : RawDesktopEl, (mkTargetSizeEntry d).meets24x24 = false ↔
      (desktopEffectiveWidth d < 24 ∨ desktopEffectiveHeight d < 24)) := by
  refine ⟨?_, ?_, ?_, ?_⟩
  · intro e hw hh
    simp only [mkTouchTarget] at hw hh ⊢
    simp only [hw, hh]
    rfl
  · intro e
    simp only [mkTouchTarget, Bool.and_eq_false_iff, decide_eq_false_iff_not, not_le]
  · intro d hw hh
    simp only [mkTargetSizeEntry, hw, hh]
    norm_num
  · intro d
    simp only [mkTargetSizeEntry, Bool.and_eq_false_iff, decide_eq_false_iff_not, not_le]

/-- Witness for C8: a rect of 40×40 with 2px padding per side is compliant
on mobile (exactly 44×44); a 20×20 box with 2px padding per side is
compliant on desktop (exactly 24×24). -/
theorem target_size_boundaries_inclusive_witness :
    (mkTouchTarget demoMobileEl).meetsWCAG = true ∧
    (mkTargetSizeEntry demoDesktopEl).meets24x24 = true := by
  constructor
  · exact target_size_boundaries_inclusive.1 demoMobileEl
      (by norm_num [mkTouchTarget, getElementSize, demoMobileEl, orFalsyInt])
      (by norm_num [mkTouchTarget, getElementSize, demoMobileEl, orFalsyInt])
  · exact target_size_boundaries_inclusive.2.2.1 demoDesktopEl
      (by norm_num [desktopEffectiveWidth, demoDesktopEl])
      (by norm_num [desktopEffectiveHeight, demoDesktopEl])

/-- C6: every snapshot's optional fields are all-or-nothing.  On the
lightweight path the returned snapshot has `cssAnalysis`, `reflowTest`,
`zoomTest` and `mobileData` all absent/null while `structuredData` is the
full extraction from the fetched document.  On the render path each
optional field is `none` exactly when its stage threw, and otherwise
carries the stage's fully built record; `mobileData` is null exactly when
both the full capture and the reduced fallback threw. -/
theorem snapshot_optional_fields_all_or_nothing :
    (∀ url ts o snap, fetchWebsiteSimple url ts o = .ok snap →
      snap.cssAnalysis = none ∧ snap.reflowTest = none ∧ snap.zoomTest = none ∧
        snap.mobileData = none ∧
        ∃ st stx h dom, o = .response st stx h dom ∧
          snap.structuredData = mkStructuredData (firstTruthy dom.titleText "No title") dom) ∧
    (∀ url ts env,
      ((sessionSnapshot url ts env).snapshot.cssAnalysis = none ↔
        exOk env.cssOutcome = false) ∧
      (∀ r, env.cssOutcome = .ok r →
        (sessionSnapshot url ts env).snapshot.cssAnalysis = some (mkDesktopCss r)) ∧
      ((sessionSnapshot url ts env).snapshot.reflowTest = none ↔
        exOk env.reflowOutcome = false) ∧
      (∀ r, env.reflowOutcome = .ok r →
        (sessionSnapshot url ts env).snapshot.reflowTest = some (mkReflowTest r)) ∧
      ((sessionSnapshot url ts env).snapshot.zoomTest = none ↔
        exOk env.zoomOutcome = false) ∧
      (∀ r, env.zoomOutcome = .ok r →
        (sessionSnapshot url ts env).snapshot.zoomTest = some (mkZoomTest r)) ∧
      ((sessionSnapshot url ts env).snapshot.mobileData = none ↔
        (exOk env.mobileOutcome = false ∧ exOk env.basicOutcome = false))) := by
  constructor
  · intro url ts o snap h
    cases o with
    | transportError msg => simp [fetchWebsiteSimple] at h
    | response st stx html dom =>
      simp only [fetchWebsiteSimple] at h
      split at h
      · cases h
        refine ⟨rfl, rfl, rfl, rfl, st, stx, html, dom, rfl, rfl⟩
      · cases h
  · intro url ts env
    refine ⟨?_, ?_, ?_, ?_, ?_, ?_, ?_⟩
    · cases hc : env.cssOutcome <;> simp [sessionSnapshot, hc, exOk]
    · intro r hr; simp [sessionSnapshot, hr]
    · cases hc : env.reflowOutcome <;> simp [sessionSnapshot, hc, exOk]
    · intro r hr; simp [sessionSnapshot, hr]
    · cases hc : env.zoomOutcome <;> simp [sessionSnapshot, hc, exOk]
    · intro r hr; simp [sessionSnapshot, hr]
    · cases hm : env.mobileOutcome <;> cases hb : env.basicOutcome <;>
        simp [sessionSnapshot, hm, hb, exOk]

/-- Witness for C6: the lightweight path at a concrete 2xx response, a
session whose CSS stage succeeded, and a session where both mobile stages
threw. -/
theorem snapshot_optional_fields_all_or_nothing_witness :
    (demoSimpleSnap.cssAnalysis = none ∧ demoSimpleSnap.mobileData = none) ∧
    (sessionSnapshot "https://e.com" "t0" demoEnv).snapshot.cssAnalysis
      = some (mkDesktopCss demoCssRaw) ∧
    (sessionSnapshot "https://e.com" "t0" demoEnvAllFail).snapshot.mobileData = none := by
  have h1 := snapshot_optional_fields_all_or_nothing.1 "https://e.com" "t0"
    (.response 200 "OK" "<p>hi</p>" demoDom) demoSimpleSnap (by rfl)
  refine ⟨⟨h1.1, h1.2.2.2.1⟩, ?_, ?_⟩
  · exact (snapshot_optional_fields_all_or_nothing.2 "https://e.com" "t0" demoEnv).2.1
      demoCssRaw rfl
  · exact ((snapshot_optional_fields_all_or_nothing.2 "https://e.com" "t0"
      demoEnvAllFail).2.2.2.2.2.2).mpr ⟨rfl, rfl⟩

/-- C7: an exception inside the mobile-capture stage does not abort the
snapshot.  The capture degrades to the reduced extraction — viewport facts
plus the raw touch-target count only (`compliant` fixed at 0, no
per-element reports) and no style analysis; if even the reduced extraction
throws, `mobileData` is null.  Either way the rest of the snapshot
(desktop structured data, CSS analysis, reflow and zoom results) is still
returned, and the browser is closed before returning. -/
theorem mobile_failure_degrades_snapshot (url ts : String) (env : RenderEnv)
    (e : String) (hm : env.mobileOutcome = .error e) :
    (∀ b, env.basicOutcome = .ok b →
      (sessionSnapshot url ts env).snapshot.mobileData
          = some (.reduced (mkBasicMobile b)) ∧
        (mkBasicMobile b).touchTargets.total = b.interactiveCount ∧
        (mkBasicMobile b).touchTargets.compliant = 0 ∧
        (mkBasicMobile b).touchTargets.nonCompliant = []) ∧
    (∀ e2, env.basicOutcome = .error e2 →
      (sessionSnapshot url ts env).snapshot.mobileData = none) ∧
    mobileStyleAnalysisPresent (sessionSnapshot url ts env).snapshot.mobileData = false ∧
    (sessionSnapshot url ts env).snapshot.structuredData
      = mkStructuredData
        (firstTruthy env.pageTitle (firstTruthy env.dom.titleText "No title")) env.dom ∧
    (sessionSnapshot url ts env).snapshot.cssAnalysis
      = (match env.cssOutcome with
        | .ok r => some (mkDesktopCss r)
        | .error _ => none) ∧
    (sessionSnapshot url ts env).snapshot.reflowTest
      = (match env.reflowOutcome with
        | .ok r => some (mkReflowTest r)
        | .error _ => none) ∧
    (sessionSnapshot url ts env).snapshot.zoomTest
      = (match env.zoomOutcome with
        | .ok r => some (mkZoomTest r)
        | .error _ => none) ∧
    (sessionSnapshot url ts env).browserClosed = true := by
  refine ⟨?_, ?_, ?_, rfl, rfl, rfl, rfl, rfl⟩
  · intro b hb
    refine ⟨?_, rfl, rfl, rfl⟩
    simp [sessionSnapshot, hm, hb]
  · intro e2 hb
    simp [sessionSnapshot, hm, hb]
  · cases hb : env.basicOutcome <;>
      simp [sessionSnapshot, hm, hb, mobileStyleAnalysisPresent]

/-- Witness for C7: a session whose full mobile capture threw while the
reduced extraction succeeded. -/
theorem mobile_failure_degrades_snapshot_witness :
    (sessionSnapshot "https://e.com" "t0" demoEnvMobileFail).snapshot.mobileData
      = some (.reduced (mkBasicMobile demoBasicRaw)) ∧
    (mkBasicMobile demoBasicRaw).touchTargets.compliant = 0 ∧
    (sessionSnapshot "https://e.com" "t0" demoEnvMobileFail).browserClosed = true := by
  have h := mobile_failure_degrades_snapshot "https://e.com" "t0" demoEnvMobileFail
    "mobile stage threw" rfl
  exact ⟨(h.1 demoBasicRaw rfl).1, (h.1 demoBasicRaw rfl).2.2.1, h.2.2.2.2.2.2.2⟩

end Audit
